import Mathlib

/-!
Shallow embedding of the portfolio-optimization dashboard callback
(`update_output` in `Dahsboard_New3.py`) and verification of its
specification claims.

External collaborators (yfinance download, pypfopt estimators and
`EfficientFrontier`, quantstats statistics) are modelled as fields of an
`Env` record: arbitrary total functions supplied by the environment.
Machine floats are modelled as rationals; pandas date-indexed series are
modelled as lists ordered by date.  Fetch and optimizer calls are
recorded in a `Trace` so that call-counting claims can be stated.
-/

namespace MarkowitzDash

abbrev Ticker := String

/-- An ordered weight mapping, as Python's `OrderedDict` of ticker/weight. -/
abbrev Weights := List (Ticker × ℚ)

/-- Price table: one column (price series ordered by date) per ticker. -/
abbrev PriceTable := List (Ticker × List ℚ)

/-- The `time_horizons` dict literal (lines 13-19 of the source). -/
def time_horizons : List (String × Nat) :=
  [("3 Months", 3), ("1 Year", 12), ("3 Years", 36), ("5 Years", 60), ("10 Years", 120)]

/-- The `risk_preferences` list literal (line 21). -/
def risk_preferences : List String := ["Max_Sharpe", "Min_Volatility", "Specific_Risk"]

/-- The hardcoded 28-ticker universe string (line 109). -/
def tickersStr : String :=
  "AXP AMGN AAPL BA CAT CSCO CVX GS HD HON IBM INTC JNJ KO JPM MCD MMM MRK MSFT NKE PG TRV UNH CRM VZ V WBA WMT DIS"

/-- Benchmark ticker used at lines 147 and 172. -/
def benchTicker : String := "^DJI"

/-- Default value of the time-horizon dropdown (line 34). -/
def timeHorizonDefault : String := ""

/-- Python exceptions relevant to the callback. -/
inductive PyErr where
  | keyError : PyErr
  | valueError : PyErr
deriving DecidableEq, Repr

instance {ε α : Type} [DecidableEq ε] [DecidableEq α] : DecidableEq (Except ε α) := fun x y =>
  match x, y with
  | Except.ok a, Except.ok b =>
    if h : a = b then isTrue (by rw [h])
    else isFalse (by intro hc; cases hc; exact h rfl)
  | Except.error a, Except.error b =>
    if h : a = b then isTrue (by rw [h])
    else isFalse (by intro hc; cases hc; exact h rfl)
  | Except.ok _, Except.error _ => isFalse (by intro hc; cases hc)
  | Except.error _, Except.ok _ => isFalse (by intro hc; cases hc)

/-- The `EfficientFrontier` object: what each of its consumed methods
returns for this run's inputs.  Optimization methods may fail (the
source catches `ValueError`). -/
structure EF where
  max_sharpe : Except PyErr Weights
  min_volatility : Except PyErr Weights
  efficient_risk : ℚ → Except PyErr Weights
  clean_weights : Weights

/-- The external collaborators and the clock, as total functions. -/
structure Env where
  nowDay : Int
  download : String → Int → Int → PriceTable
  downloadBench : Int → Int → List ℚ
  mean_historical_return : PriceTable → List (Ticker × ℚ)
  sample_cov : PriceTable → List (List ℚ)
  efficientFrontier : List (Ticker × ℚ) → List (List ℚ) → EF
  sharpe : List ℚ → ℚ
  comp : List ℚ → ℚ
  volatility : List ℚ → ℚ
  consecutive_wins : List ℚ → ℚ
  consecutive_losses : List ℚ → ℚ
  cagr : List ℚ → ℚ

/-- Line 102: `end_date = datetime.now() - timedelta(days=1)`. -/
def computeEndDate (nowDay : Int) : Int := nowDay - 1

/-- Line 104: `start_date = end_date - timedelta(days=30 * months)`. -/
def computeStartDate (endDate : Int) (months : Nat) : Int := endDate - 30 * (months : Int)

/-- Model of `Series.pct_change().dropna()`: fractional day-over-day changes with
the undefined first entry dropped. -/
def pctChange (ps : List ℚ) : List ℚ :=
  (ps.tail.zip ps).map (fun q => q.1 / q.2 - 1)

/-- Model of `Series.pct_change()` without `dropna`: the first entry is NaN
(modelled as `none`), later entries are the fractional changes. -/
def pctChangeOpt (ps : List ℚ) : List (Option ℚ) :=
  match ps with
  | [] => []
  | _ :: _ => none :: (pctChange ps).map some

/-- Weight of a ticker in a weight mapping (0 when absent), as pandas
column alignment of `pd.Series(cleaned_weights)`. -/
def wLookup (w : Weights) (tk : Ticker) : ℚ := (w.lookup tk).getD 0

/-- Number of rows of `prices.pct_change().dropna()` (all aligned columns
share one date index). -/
def numReturnDays (p : PriceTable) : Nat :=
  match p with
  | [] => 0
  | c :: _ => (pctChange c.2).length

/-- Line 144: `(daily_returns * pd.Series(cleaned_weights)).sum(axis=1)` -
per date, the weighted sum over all columns of daily returns. -/
def portfolioReturns (p : PriceTable) (w : Weights) : List ℚ :=
  (List.range (numReturnDays p)).map (fun t =>
    (p.map (fun c => wLookup w c.1 * (pctChange c.2).getD t 0)).sum)

/-- Ordering used by `sorted(..., key=lambda item: item[1], reverse=True)`:
descending by weight. -/
def wge (a b : Ticker × ℚ) : Prop := b.2 ≤ a.2

instance : DecidableRel wge := fun a b => inferInstanceAs (Decidable (b.2 ≤ a.2))

instance : IsTotal (Ticker × ℚ) wge := ⟨fun a b => le_total b.2 a.2⟩

instance : IsTrans (Ticker × ℚ) wge := ⟨fun _ _ _ h1 h2 => le_trans h2 h1⟩

/-- Lines 131-133: sort the cleaned weights descending by weight (a
stable sort, as Python's `sorted`), then keep only strictly positive
entries. -/
def filterSortWeights (ws : Weights) : Weights :=
  (List.insertionSort wge ws).filter (fun p => decide (0 < p.2))

/-- Running products of a list with accumulator `a`, as pandas
`cumprod`: entry `i` is `a` times the product of the first `i+1` inputs. -/
def cumprodAux (a : ℚ) : List ℚ → List ℚ
  | [] => []
  | x :: xs => (a * x) :: cumprodAux (a * x) xs

/-- Lines 169/174 on a fully defined series:
`(1 + returns).cumprod() - 1`. -/
def cumulativeReturns (rs : List ℚ) : List ℚ :=
  (cumprodAux 1 (rs.map (fun r => 1 + r))).map (fun x => x - 1)

/-- pandas `cumprod` with its default `skipna=True` on a series with
missing entries: `none` stays `none`, defined entries accumulate the
product of the defined entries seen so far. -/
def cumprodSkip (a : ℚ) : List (Option ℚ) → List (Option ℚ)
  | [] => []
  | none :: xs => none :: cumprodSkip a xs
  | some x :: xs => some (a * x) :: cumprodSkip (a * x) xs

/-- Line 174 on the benchmark series that was not `dropna`-ed:
`(1 + returns).cumprod() - 1` with NaN propagated positionally. -/
def cumulativeReturnsOpt (rs : List (Option ℚ)) : List (Option ℚ) :=
  (cumprodSkip 1 (rs.map (Option.map (fun r => 1 + r)))).map (Option.map (fun x => x - 1))

/-- Binary minimum keeping the earlier argument on ties, as Python `min`. -/
def rmin (a b : ℚ) : ℚ := if b < a then b else a

/-- Python `min` over dict values; `none` on an empty collection (where
Python would raise). -/
def pyMin : List ℚ → Option ℚ
  | [] => none
  | x :: xs => some (xs.foldl rmin x)

/-- Python `round(x, 4)` (exact-tie behavior immaterial to the claims). -/
def round4 (x : ℚ) : ℚ := (⌊x * 10000 + 1/2⌋ : ℚ) / 10000

/-- Display formatting `f"{x:.2f}"`, modelled as rounding to two
decimals. -/
def fmt2 (x : ℚ) : ℚ := (⌊x * 100 + 1/2⌋ : ℚ) / 100

/-- A row of the metrics table: name, strategy value, benchmark value. -/
abbrev MetricsRow := String × ℚ × ℚ

/-- Lines 206-217: the `metrics_data` list.  Each statistic is taken of
the raw (unrounded) return series; rounding happens only in the display
formatting of each cell. -/
def metricsData (env : Env) (pf bench : List ℚ) : List MetricsRow :=
  [("Annual Return", fmt2 (env.comp pf), fmt2 (env.comp bench)),
   ("Sharpe Ratio", fmt2 (env.sharpe pf), fmt2 (env.sharpe bench)),
   ("Volatility", fmt2 (env.volatility pf), fmt2 (env.volatility bench)),
   ("Consecutive Wins", fmt2 (env.consecutive_wins pf), fmt2 (env.consecutive_wins bench)),
   ("Consecutive Losses", fmt2 (env.consecutive_losses pf), fmt2 (env.consecutive_losses bench)),
   ("CAGR", fmt2 (env.cagr pf), fmt2 (env.cagr bench))]

/-- One rendered output value of the callback. -/
inductive Component where
  | invalidNotice : Component
  | emptyDiv : Component
  | portfolioDiv : Weights → Component
  | metricsContainer : List MetricsRow → Component
  | figure : List (Option ℚ) → List (Option ℚ) → Component
  | emptyFigure : Component
  | errorNotice : ℚ → Component
deriving DecidableEq

/-- Record of external calls made during one run. -/
structure Trace where
  fetches : List (String × Int × Int)
  optimizes : List String
deriving DecidableEq

/-- The three declared outputs of the callback (lines 91-93). -/
def update_output_outputs : List String :=
  ["optimized-portfolio.children", "performance-metrics.children", "return-plot.figure"]

/-- Lines 110-118: download the universe prices for the date range. -/
def pricesOf (env : Env) (s e : Int) : PriceTable := env.download tickersStr s e

/-- Lines 114-118: estimate expected returns and covariance from the
prices and construct the `EfficientFrontier` object. -/
def efOf (env : Env) (s e : Int) : EF :=
  let prices := pricesOf env s e
  let mu := env.mean_historical_return prices
  let S := env.sample_cov prices
  env.efficientFrontier mu S

/-- Lines 120-127: pick the optimization call for the selected risk
preference; `none` for an unrecognized preference.  Also records which
objective method was invoked. -/
def selectObjective (ef : EF) (risk : String) (tv : ℚ) :
    Option (Except PyErr Weights × String) :=
  if risk = "Max_Sharpe" then some (ef.max_sharpe, "max_sharpe")
  else if risk = "Min_Volatility" then some (ef.min_volatility, "min_volatility")
  else if risk = "Specific_Risk" then some (ef.efficient_risk tv, "efficient_risk")
  else none

/-- Lines 129-242: the successful branch's three outputs. -/
def successOutput (env : Env) (s e : Int) (prices : PriceTable) (ef : EF) : List Component :=
  let cleaned_weights := ef.clean_weights
  let filtered_sorted_weights := filterSortWeights cleaned_weights
  let optimized_portfolio_returns := portfolioReturns prices cleaned_weights
  let dow_jones_returns := pctChange (env.downloadBench s e)
  let metrics := metricsData env optimized_portfolio_returns dow_jones_returns
  let cumulative_returns_portfolio := cumulativeReturns optimized_portfolio_returns
  let cumulative_returns_dow := cumulativeReturnsOpt (pctChangeOpt (env.downloadBench s e))
  [Component.portfolioDiv filtered_sorted_weights,
   Component.metricsContainer metrics,
   Component.figure (cumulative_returns_portfolio.map some) cumulative_returns_dow]

/-- Lines 244-251: the `except ValueError` branch.  It re-runs
`ef.min_volatility()` (which yields a weight mapping), takes
`round(min(values), 4)` of it and reports that number; the branch
returns only two values. -/
def exceptOutput (ef : EF) : Except PyErr (List Component) :=
  match ef.min_volatility with
  | Except.error e => Except.error e
  | Except.ok mv =>
    match pyMin (mv.map Prod.snd) with
    | none => Except.error PyErr.valueError
    | some m => Except.ok [Component.emptyDiv, Component.errorNotice (round4 m)]

/-- Lines 99-253: the callback `update_output`, returning the rendered
outputs (or the uncaught exception) together with the trace of external
fetch and optimizer calls. -/
def update_output (env : Env) (n_clicks : Nat) (time_horizon : String)
    (risk_preference : String) (target_volatility : ℚ) :
    Except PyErr (List Component) × Trace :=
  if 0 < n_clicks then
    let end_date := computeEndDate env.nowDay
    match time_horizons.lookup time_horizon with
    | none => (Except.error PyErr.keyError, Trace.mk [] [])
    | some months =>
      let start_date := computeStartDate end_date months
      let prices := pricesOf env start_date end_date
      let ef := efOf env start_date end_date
      match selectObjective ef risk_preference target_volatility with
      | none =>
          (Except.ok [Component.invalidNotice, Component.emptyDiv],
           Trace.mk [(tickersStr, start_date, end_date)] [])
      | some obj =>
          match obj.1 with
          | Except.ok _weights =>
              (Except.ok (successOutput env start_date end_date prices ef),
               Trace.mk [(tickersStr, start_date, end_date),
                         (benchTicker, start_date, end_date),
                         (benchTicker, start_date, end_date)] [obj.2])
          | Except.error _e =>
              (exceptOutput ef,
               Trace.mk [(tickersStr, start_date, end_date)] [obj.2, "min_volatility"])
  else
    (Except.ok [Component.emptyDiv, Component.emptyDiv, Component.emptyFigure],
     Trace.mk [] [])

/-! ### Concrete fixture used to evaluate the model -/

/-- A concrete `EfficientFrontier` fixture: maximize-Sharpe succeeds,
the specific-risk objective is infeasible (raises), and the
minimize-volatility solution is the weight mapping {AXP: 3/5, AMGN: 2/5}. -/
def ef0 : EF :=
  { max_sharpe := Except.ok [("AAPL", 1)]
  , min_volatility := Except.ok [("AXP", 3/5), ("AMGN", 2/5)]
  , efficient_risk := fun _ => Except.error PyErr.valueError
  , clean_weights := [("AXP", 1/2), ("AMGN", 1/2), ("AAPL", 0)] }

/-- Covariance fixture returned by `env0.sample_cov`: diagonal 1/25. -/
def Sfix : List (List ℚ) := [[1/25, 0], [0, 1/25]]

/-- The minimize-volatility weight vector of the fixture, as a plain list. -/
def wfix : List ℚ := [3/5, 2/5]

/-- Portfolio variance `wᵀ S w` for a weight list and covariance matrix. -/
def portVariance (S : List (List ℚ)) (w : List ℚ) : ℚ :=
  ((w.zip S).map (fun p => p.1 * ((p.2.zip w).map (fun q => q.1 * q.2)).sum)).sum

/-- A concrete environment fixture. -/
def env0 : Env :=
  { nowDay := 20000
  , download := fun _ _ _ =>
      [("AXP", [100, 110, 121]), ("AMGN", [50, 55, 66]), ("AAPL", [10, 20, 30])]
  , downloadBench := fun _ _ => [1000, 1100, 1210]
  , mean_historical_return := fun _ => []
  , sample_cov := fun _ => Sfix
  , efficientFrontier := fun _ _ => ef0
  , sharpe := fun l => l.sum
  , comp := fun l => l.sum + 1
  , volatility := fun l => (l.length : ℚ)
  , consecutive_wins := fun _ => 3
  , consecutive_losses := fun _ => 4
  , cagr := fun l => l.sum * 2 }

/-! ### Helper lemmas -/

/-- A recognized time-horizon label maps to one of the five month counts. -/
lemma lookup_month_cases {th : String} {m : Nat}
    (h : time_horizons.lookup th = some m) :
    m = 3 ∨ m = 12 ∨ m = 36 ∨ m = 60 ∨ m = 120 := by
  simp only [time_horizons, List.lookup] at h
  repeat' split at h
  all_goals simp_all

/-- Dropping list entries on which a summand vanishes does not change a sum. -/
lemma sum_filter_of_eq_zero {α : Type} (g : α → ℚ) (pr : α → Bool)
    (hg : ∀ c, pr c = false → g c = 0) :
    ∀ l : List α, ((l.filter pr).map g).sum = (l.map g).sum := by
  intro l
  induction l with
  | nil => rfl
  | cons x xs ih =>
    by_cases hx : pr x = true
    · simp [List.filter_cons, hx, ih]
    · have hx0 : pr x = false := by simpa using hx
      simp [List.filter_cons, hx0, ih, hg x hx0]

lemma cumprodAux_length (l : List ℚ) : ∀ a : ℚ, (cumprodAux a l).length = l.length := by
  induction l with
  | nil => intro a; rfl
  | cons x xs ih => intro a; simp [cumprodAux, ih]

lemma cumprodAux_getD (l : List ℚ) :
    ∀ (a : ℚ) (i : Nat), i < l.length →
      (cumprodAux a l).getD i 0 = a * (l.take (i + 1)).prod := by
  induction l with
  | nil => intro a i hi; simp at hi
  | cons x xs ih =>
    intro a i hi
    cases i with
    | zero => simp [cumprodAux]
    | succ j =>
      have hj : j < xs.length := by simpa using hi
      simp only [cumprodAux, List.getD_cons_succ, List.take_succ_cons, List.prod_cons]
      rw [ih (a * x) j hj, mul_assoc]

lemma cumulativeReturns_length (rs : List ℚ) :
    (cumulativeReturns rs).length = rs.length := by
  simp [cumulativeReturns, cumprodAux_length]

lemma cumulativeReturns_getD (rs : List ℚ) (i : Nat) (hi : i < rs.length) :
    (cumulativeReturns rs).getD i 0 =
      ((rs.take (i + 1)).map (fun r => 1 + r)).prod - 1 := by
  have hlen : i < (rs.map (fun r => 1 + r)).length := by simpa using hi
  have hlen2 : i < (cumprodAux 1 (rs.map (fun r => 1 + r))).length := by
    rw [cumprodAux_length]; exact hlen
  have h1 : (cumulativeReturns rs).getD i 0 =
      (cumprodAux 1 (rs.map (fun r => 1 + r))).getD i 0 - 1 := by
    simp only [cumulativeReturns, List.getD_eq_getElem?_getD, List.getElem?_map]
    rcases List.getElem?_eq_some_iff.mpr ⟨hlen2, rfl⟩ with _
    rw [List.getElem?_eq_getElem hlen2]
    simp
  rw [h1, cumprodAux_getD _ 1 i hlen, one_mul, List.map_take]

lemma cumprodSkip_map_some (m : List ℚ) :
    ∀ a : ℚ, cumprodSkip a (m.map some) = (cumprodAux a m).map some := by
  induction m with
  | nil => intro a; rfl
  | cons x xs ih => intro a; simp [cumprodSkip, cumprodAux, ih]

lemma map_optmap_map_some (f : ℚ → ℚ) (l : List ℚ) :
    (l.map some).map (Option.map f) = (l.map f).map some := by
  induction l with
  | nil => rfl
  | cons x xs ih =>
    simp only [List.map_cons, ih]
    rfl

lemma cumulativeReturnsOpt_none_cons (m : List ℚ) :
    cumulativeReturnsOpt (none :: m.map some) =
      none :: (cumulativeReturns m).map some := by
  calc cumulativeReturnsOpt (none :: m.map some)
      = (cumprodSkip 1 (none :: (m.map some).map (Option.map (fun r => 1 + r)))).map
          (Option.map (fun x => x - 1)) := rfl
    _ = (cumprodSkip 1 (none :: ((m.map (fun r => 1 + r)).map some))).map
          (Option.map (fun x => x - 1)) := by rw [map_optmap_map_some]
    _ = none :: ((cumprodAux 1 (m.map (fun r => 1 + r))).map some).map
          (Option.map (fun x => x - 1)) := by
          simp only [cumprodSkip, cumprodSkip_map_some, List.map_cons]
          rfl
    _ = none :: ((cumprodAux 1 (m.map (fun r => 1 + r))).map (fun x => x - 1)).map some := by
          rw [map_optmap_map_some]
    _ = none :: (cumulativeReturns m).map some := rfl

/-- The selector `selectObjective` recognizes exactly the three risk preferences. -/
lemma selectObjective_eq_none_iff (ef : EF) (risk : String) (tv : ℚ) :
    selectObjective ef risk tv = none ↔ risk ∉ risk_preferences := by
  by_cases h1 : risk = "Max_Sharpe"
  · subst h1; simp [selectObjective, risk_preferences]
  · by_cases h2 : risk = "Min_Volatility"
    · subst h2; simp [selectObjective, risk_preferences]
    · by_cases h3 : risk = "Specific_Risk"
      · subst h3; simp [selectObjective, risk_preferences]
      · simp [selectObjective, risk_preferences, h1, h2, h3]

lemma selectObjective_indep (ef : EF) (risk : String) (tv tv' : ℚ)
    (h : risk = "Max_Sharpe" ∨ risk = "Min_Volatility") :
    selectObjective ef risk tv = selectObjective ef risk tv' := by
  rcases h with h | h <;> subst h <;> simp [selectObjective]

/-! ### Claim theorems -/

/-- Claim C4: for every recognized time-horizon label (mapping to one of the
month counts 3, 12, 36, 60, 120) and every invocation clock, the end
date is yesterday, the start date is exactly 30 x month-count days
earlier (so start < end), and every market-data fetch of the run uses
exactly this date range. -/
theorem C4_date_range (env : Env) (n : Nat) (th : String) (m : Nat) (risk : String) (tv : ℚ)
    (hn : 0 < n) (hth : time_horizons.lookup th = some m) :
    computeEndDate env.nowDay = env.nowDay - 1
    ∧ computeStartDate (computeEndDate env.nowDay) m =
        computeEndDate env.nowDay - 30 * (m : Int)
    ∧ computeStartDate (computeEndDate env.nowDay) m < computeEndDate env.nowDay
    ∧ (m = 3 ∨ m = 12 ∨ m = 36 ∨ m = 60 ∨ m = 120)
    ∧ ∀ c ∈ (update_output env n th risk tv).2.fetches,
        c.2.1 = computeStartDate (computeEndDate env.nowDay) m
        ∧ c.2.2 = computeEndDate env.nowDay := by
  have hm := lookup_month_cases hth
  have hm0 : 0 < m := by rcases hm with h | h | h | h | h <;> subst h <;> norm_num
  refine ⟨rfl, rfl, ?_, hm, ?_⟩
  · simp only [computeStartDate, computeEndDate]
    omega
  · intro c hc
    simp only [update_output, if_pos hn, hth] at hc
    rcases hsel : selectObjective
        (efOf env (computeStartDate (computeEndDate env.nowDay) m) (computeEndDate env.nowDay))
        risk tv with _ | obj
    · simp only [hsel, List.mem_singleton] at hc
      subst hc
      exact ⟨rfl, rfl⟩
    · rcases hres : obj.1 with er | w
      · simp only [hsel, hres, List.mem_singleton] at hc
        subst hc
        exact ⟨rfl, rfl⟩
      · simp only [hsel, hres, List.mem_cons, List.not_mem_nil, or_false] at hc
        rcases hc with hc | hc | hc <;> subst hc <;> exact ⟨rfl, rfl⟩

/-- Witness for C4: concrete instantiation at the "1 Year" label. -/
theorem C4_witness :
    time_horizons.lookup "1 Year" = some 12
    ∧ computeStartDate (computeEndDate env0.nowDay) 12 < computeEndDate env0.nowDay :=
  ⟨by decide,
   (C4_date_range env0 1 "1 Year" 12 "Max_Sharpe" (1/10) (by decide) (by decide)).2.2.1⟩

/-- Claim C10: a triggered run with an unrecognized time-horizon label (the
dropdown default "" included) raises `KeyError` at the month-count
lookup, for every risk preference, with no fetch, no optimizer call and
no invalid-selection notice. -/
theorem C10_keyerror_unknown_horizon (env : Env) (n : Nat) (th risk : String) (tv : ℚ)
    (hn : 0 < n) (hth : time_horizons.lookup th = none) :
    update_output env n th risk tv = (Except.error PyErr.keyError, Trace.mk [] [])
    ∧ time_horizons.lookup timeHorizonDefault = none := by
  constructor
  · simp only [update_output, if_pos hn, hth]
  · decide

/-- Witness for C10: concrete instantiation at the default empty label. -/
theorem C10_witness :
    update_output env0 1 timeHorizonDefault "Max_Sharpe" (1/10) =
      (Except.error PyErr.keyError, Trace.mk [] []) :=
  (C10_keyerror_unknown_horizon env0 1 timeHorizonDefault "Max_Sharpe" (1/10)
    (by decide) (by decide)).1

/-- Counterexample for C1: at a concrete invalid risk preference the
invalid-selection output is produced, but the run's fetch trace is not
empty (the universe download happens before the risk-preference check),
refuting the claim's "zero market-data fetch calls". -/
theorem C1_counterexample :
    "Foo" ∉ risk_preferences
    ∧ (update_output env0 1 "1 Year" "Foo" (1/10)).1 =
        Except.ok [Component.invalidNotice, Component.emptyDiv]
    ∧ (update_output env0 1 "1 Year" "Foo" (1/10)).2.fetches ≠ [] :=
  ⟨by decide, rfl, by decide⟩

/-- Claim C1 (amended): a triggered run with a recognized time horizon and an
unrecognized risk preference produces the invalid-selection output and
performs zero optimizer calls, but exactly one market-data fetch (the
28-ticker universe download) occurs before the short-circuit. -/
theorem C1_invalid_selection (env : Env) (n : Nat) (th : String) (m : Nat)
    (risk : String) (tv : ℚ)
    (hn : 0 < n) (hth : time_horizons.lookup th = some m)
    (hr : risk ∉ risk_preferences) :
    (update_output env n th risk tv).1 =
      Except.ok [Component.invalidNotice, Component.emptyDiv]
    ∧ (update_output env n th risk tv).2.optimizes = []
    ∧ (update_output env n th risk tv).2.fetches.length = 1 := by
  have hsel := (selectObjective_eq_none_iff
    (efOf env (computeStartDate (computeEndDate env.nowDay) m) (computeEndDate env.nowDay))
    risk tv).mpr hr
  simp [update_output, if_pos hn, hth, hsel]

/-- Witness for C1: concrete instantiation of the amended claim. -/
theorem C1_witness :
    0 < 1
    ∧ "Foo" ∉ risk_preferences
    ∧ (update_output env0 1 "1 Year" "Foo" (1/10)).2.fetches.length = 1 :=
  ⟨by decide, by decide,
   (C1_invalid_selection env0 1 "1 Year" 12 "Foo" (1/10) (by decide) (by decide)
     (by decide)).2.2⟩

/-- Claim C8: for the "Max_Sharpe" and "Min_Volatility" risk preferences, the
target-volatility input never influences the run: two runs differing
only in it produce identical outputs and traces. -/
theorem C8_target_volatility_unused (env : Env) (n : Nat) (th : String) (risk : String)
    (tv tv' : ℚ) (h : risk = "Max_Sharpe" ∨ risk = "Min_Volatility") :
    update_output env n th risk tv = update_output env n th risk tv' := by
  unfold update_output
  simp only
    [show ∀ ef : EF, selectObjective ef risk tv = selectObjective ef risk tv' from
      fun ef => selectObjective_indep ef risk tv tv' h]

/-- Witness for C8: concrete instantiation. -/
theorem C8_witness :
    update_output env0 1 "1 Year" "Max_Sharpe" (1/10) =
      update_output env0 1 "1 Year" "Max_Sharpe" (9/10) :=
  C8_target_volatility_unused env0 1 "1 Year" "Max_Sharpe" (1/10) (9/10) (Or.inl rfl)

/-- Claim C3: the success branch computes the portfolio return series from the
full cleaned weight mapping (`ef.clean_weights`), not from the filtered
display collection, and each day's portfolio return is the weighted sum
over the columns — on which the zero-weighted columns contribute exactly
zero (dropping them leaves every day's sum unchanged). -/
theorem C3_returns_use_cleaned_weights (env : Env) (s e : Int) (p : PriceTable) (ef : EF)
    (w : Weights) (t : Nat) (ht : t < numReturnDays p) :
    successOutput env s e p ef =
      [Component.portfolioDiv (filterSortWeights ef.clean_weights),
       Component.metricsContainer (metricsData env (portfolioReturns p ef.clean_weights)
         (pctChange (env.downloadBench s e))),
       Component.figure ((cumulativeReturns (portfolioReturns p ef.clean_weights)).map some)
         (cumulativeReturnsOpt (pctChangeOpt (env.downloadBench s e)))]
    ∧ (portfolioReturns p w).getD t 0 =
        (p.map (fun c => wLookup w c.1 * (pctChange c.2).getD t 0)).sum
    ∧ (portfolioReturns p w).getD t 0 =
        ((p.filter (fun c => decide (wLookup w c.1 ≠ 0))).map
          (fun c => wLookup w c.1 * (pctChange c.2).getD t 0)).sum := by
  have h1 : (portfolioReturns p w).getD t 0 =
      (p.map (fun c => wLookup w c.1 * (pctChange c.2).getD t 0)).sum := by
    simp only [portfolioReturns, List.getD_eq_getElem?_getD]
    rw [List.getElem?_map, List.getElem?_range ht]
    rfl
  have h2 := sum_filter_of_eq_zero
    (fun c : Ticker × List ℚ => wLookup w c.1 * (pctChange c.2).getD t 0)
    (fun c => decide (wLookup w c.1 ≠ 0))
    (by
      intro c hc
      have hz : wLookup w c.1 = 0 := by simpa using hc
      show wLookup w c.1 * (pctChange c.2).getD t 0 = 0
      rw [hz, zero_mul]) p
  exact ⟨rfl, h1, by rw [h1, ← h2]⟩

/-- Witness for C3: concrete instantiation on the fixture price table. -/
theorem C3_witness :
    0 < numReturnDays (pricesOf env0 0 1)
    ∧ (portfolioReturns (pricesOf env0 0 1) ef0.clean_weights).getD 0 0 =
        ((pricesOf env0 0 1).map
          (fun c => wLookup ef0.clean_weights c.1 * (pctChange c.2).getD 0 0)).sum :=
  ⟨by decide,
   (C3_returns_use_cleaned_weights env0 0 1 (pricesOf env0 0 1) ef0 ef0.clean_weights 0
     (by decide)).2.1⟩

/-- Claim C5: the displayed weight collection holds exactly the cleaned
entries of strictly positive weight (a permutation of the positive-weight
filter of the cleaned mapping), all its members are strictly positive,
and it is sorted non-increasing by weight. -/
theorem C5_filtered_sorted (ws : Weights) :
    (filterSortWeights ws).Perm (ws.filter (fun q => decide (0 < q.2)))
    ∧ List.Sorted wge (filterSortWeights ws)
    ∧ ∀ q ∈ filterSortWeights ws, 0 < q.2 := by
  refine ⟨(List.perm_insertionSort wge ws).filter _,
          (List.sorted_insertionSort wge ws).filter _, ?_⟩
  intro q hq
  have := List.of_mem_filter hq
  simpa using this

/-- Witness for C5: concrete instantiation on the fixture cleaned weights. -/
theorem C5_witness :
    List.Sorted wge (filterSortWeights ef0.clean_weights)
    ∧ ∀ q ∈ filterSortWeights ef0.clean_weights, 0 < q.2 :=
  ⟨(C5_filtered_sorted ef0.clean_weights).2.1, (C5_filtered_sorted ef0.clean_weights).2.2⟩

/-- Claim C6: for both daily return series, the cumulative-return series is
the running product of (1 + daily return) minus 1: for the portfolio
series (first undefined entry already dropped), entry `i` compounds the
first `i+1` returns; for the benchmark series kept with its undefined
first entry, the first entry stays undefined and entry `j+1` compounds
the first `j+1` available returns. -/
theorem C6_cumulative_returns (rs ps : List ℚ) (i j : Nat)
    (hi : i < rs.length) (hps : ps ≠ []) (hj : j < (pctChange ps).length) :
    (cumulativeReturns rs).length = rs.length
    ∧ (cumulativeReturns rs).getD i 0 =
        ((rs.take (i + 1)).map (fun r => 1 + r)).prod - 1
    ∧ (cumulativeReturnsOpt (pctChangeOpt ps)).getD 0 none = none
    ∧ (cumulativeReturnsOpt (pctChangeOpt ps)).getD (j + 1) none =
        some ((((pctChange ps).take (j + 1)).map (fun r => 1 + r)).prod - 1) := by
  obtain ⟨x, xs, rfl⟩ : ∃ y ys, ps = y :: ys := by
    cases ps with
    | nil => exact absurd rfl hps
    | cons y ys => exact ⟨y, ys, rfl⟩
  have hopt : pctChangeOpt (x :: xs) = none :: (pctChange (x :: xs)).map some := rfl
  have hcum := cumulativeReturnsOpt_none_cons (pctChange (x :: xs))
  refine ⟨cumulativeReturns_length rs, cumulativeReturns_getD rs i hi, ?_, ?_⟩
  · rw [hopt, hcum]
    rfl
  · rw [hopt, hcum]
    have hj2 : j < (cumulativeReturns (pctChange (x :: xs))).length := by
      rw [cumulativeReturns_length]
      exact hj
    calc ((none :: (cumulativeReturns (pctChange (x :: xs))).map some).getD (j + 1) none)
        = ((cumulativeReturns (pctChange (x :: xs))).map some).getD j none := rfl
      _ = some ((cumulativeReturns (pctChange (x :: xs))).getD j 0) := by
          simp only [List.getD_eq_getElem?_getD]
          rw [List.getElem?_map, List.getElem?_eq_getElem hj2]
          rfl
      _ = some ((((pctChange (x :: xs)).take (j + 1)).map (fun r => 1 + r)).prod - 1) := by
          rw [← cumulativeReturns_getD _ j hj]

/-- Witness for C6: concrete instantiation on the fixture benchmark series. -/
theorem C6_witness :
    (cumulativeReturns (pctChange [(1 : ℚ), 2, 4])).length =
      (pctChange [(1 : ℚ), 2, 4]).length
    ∧ (cumulativeReturnsOpt (pctChangeOpt [(1 : ℚ), 2, 4])).getD 0 none = none :=
  ⟨(C6_cumulative_returns (pctChange [(1 : ℚ), 2, 4]) [(1 : ℚ), 2, 4] 0 0
      (by decide) (by decide) (by decide)).1,
   (C6_cumulative_returns (pctChange [(1 : ℚ), 2, 4]) [(1 : ℚ), 2, 4] 0 0
      (by decide) (by decide) (by decide)).2.2.1⟩

/-- Claim C7: the metrics table has exactly six rows, in the fixed order
Annual Return, Sharpe Ratio, Volatility, Consecutive Wins, Consecutive
Losses, CAGR; each row applies one and the same statistic function
independently to the raw portfolio series and the raw benchmark series,
and two-decimal rounding (`fmt2`) is applied only at display, outside
the statistic. -/
theorem C7_metrics_table (env : Env) (s e : Int) (p : PriceTable) (ef : EF)
    (pf bench : List ℚ) :
    (metricsData env pf bench).length = 6
    ∧ (metricsData env pf bench).map Prod.fst =
        ["Annual Return", "Sharpe Ratio", "Volatility", "Consecutive Wins",
         "Consecutive Losses", "CAGR"]
    ∧ (successOutput env s e p ef).getD 1 Component.emptyDiv =
        Component.metricsContainer
          (([("Annual Return", env.comp), ("Sharpe Ratio", env.sharpe),
             ("Volatility", env.volatility), ("Consecutive Wins", env.consecutive_wins),
             ("Consecutive Losses", env.consecutive_losses), ("CAGR", env.cagr)]).map
            (fun nf => (nf.1, fmt2 (nf.2 (portfolioReturns p ef.clean_weights)),
                        fmt2 (nf.2 (pctChange (env.downloadBench s e)))))) :=
  ⟨rfl, rfl, rfl⟩

/-- Claim C2: evaluated on a fixture where the specific-risk objective is
infeasible, the run re-invokes the optimizer with the
minimize-volatility objective and produces only the empty div and the
error notice (no weights display, no metrics table, no chart) — but the
number the notice reports is `round(min(weights), 4)` of the
minimize-volatility *weight mapping* (here 2/5, the smallest weight),
which is not the minimum achievable volatility: its square differs from
the variance `wᵀ S w` of the minimize-volatility solution under the
fixture covariance. -/
theorem C2_infeasible_reports_min_weight :
    (update_output env0 1 "1 Year" "Specific_Risk" (1/100)).1 =
      Except.ok [Component.emptyDiv, Component.errorNotice (2/5)]
    ∧ (update_output env0 1 "1 Year" "Specific_Risk" (1/100)).2.optimizes =
        ["efficient_risk", "min_volatility"]
    ∧ ef0.min_volatility = Except.ok [("AXP", 3/5), ("AMGN", 2/5)]
    ∧ rmin (3/5 : ℚ) (2/5) = 2/5
    ∧ (2/5 : ℚ) * (2/5) ≠ portVariance Sfix wfix := by
  have hrm : rmin (3/5 : ℚ) (2/5) = 2/5 := by
    unfold rmin
    rw [if_pos (show (2/5 : ℚ) < 3/5 by norm_num)]
  have hfloor : ⌊(2/5 : ℚ) * 10000 + 1/2⌋ = 4000 := by
    rw [Int.floor_eq_iff]
    constructor <;> norm_num
  have hround : round4 (2/5 : ℚ) = 2/5 := by
    unfold round4
    rw [hfloor]
    norm_num
  have h1 : (update_output env0 1 "1 Year" "Specific_Risk" (1/100)).1 =
      Except.ok [Component.emptyDiv,
        Component.errorNotice (round4 (rmin (3/5 : ℚ) (2/5)))] := rfl
  refine ⟨?_, rfl, rfl, hrm, ?_⟩
  · rw [h1, hrm, hround]
  · rw [show portVariance Sfix wfix = 13/625 by norm_num [portVariance, Sfix, wfix]]
    norm_num

/-- Claim C9: the callback declares three outputs, and the untriggered and
successful branches return three values, while the invalid-selection
branch and the caught infeasible-target branch return only two values,
omitting the figure output. -/
theorem C9_branch_arities :
    update_output_outputs.length = 3
    ∧ (∀ (env : Env) (th risk : String) (tv : ℚ),
        (update_output env 0 th risk tv).1 =
          Except.ok [Component.emptyDiv, Component.emptyDiv, Component.emptyFigure])
    ∧ (∀ (env : Env) (n : Nat) (th : String) (m : Nat) (risk : String) (tv : ℚ),
        0 < n → time_horizons.lookup th = some m →
        selectObjective (efOf env (computeStartDate (computeEndDate env.nowDay) m)
          (computeEndDate env.nowDay)) risk tv = none →
        ∃ l, (update_output env n th risk tv).1 = Except.ok l ∧ l.length = 2)
    ∧ (∀ (env : Env) (n : Nat) (th : String) (m : Nat) (risk : String) (tv : ℚ)
        (res : Except PyErr Weights × String) (w : Weights),
        0 < n → time_horizons.lookup th = some m →
        selectObjective (efOf env (computeStartDate (computeEndDate env.nowDay) m)
          (computeEndDate env.nowDay)) risk tv = some res →
        res.1 = Except.ok w →
        ∃ l, (update_output env n th risk tv).1 = Except.ok l ∧ l.length = 3)
    ∧ (∀ (env : Env) (n : Nat) (th : String) (m : Nat) (risk : String) (tv : ℚ)
        (res : Except PyErr Weights × String) (er : PyErr) (mv : Weights) (q : ℚ),
        0 < n → time_horizons.lookup th = some m →
        selectObjective (efOf env (computeStartDate (computeEndDate env.nowDay) m)
          (computeEndDate env.nowDay)) risk tv = some res →
        res.1 = Except.error er →
        (efOf env (computeStartDate (computeEndDate env.nowDay) m)
          (computeEndDate env.nowDay)).min_volatility = Except.ok mv →
        pyMin (mv.map Prod.snd) = some q →
        ∃ l, (update_output env n th risk tv).1 = Except.ok l ∧ l.length = 2) := by
  refine ⟨rfl, ?_, ?_, ?_, ?_⟩
  · intro env th risk tv
    rfl
  · intro env n th m risk tv hn hth hsel
    refine ⟨[Component.invalidNotice, Component.emptyDiv], ?_, rfl⟩
    simp only [update_output, if_pos hn, hth, hsel]
  · intro env n th m risk tv res w hn hth hsel hres
    refine ⟨successOutput env (computeStartDate (computeEndDate env.nowDay) m)
      (computeEndDate env.nowDay)
      (pricesOf env (computeStartDate (computeEndDate env.nowDay) m) (computeEndDate env.nowDay))
      (efOf env (computeStartDate (computeEndDate env.nowDay) m) (computeEndDate env.nowDay)),
      ?_, rfl⟩
    simp only [update_output, if_pos hn, hth, hsel, hres]
  · intro env n th m risk tv res er mv q hn hth hsel hres hmv hq
    refine ⟨[Component.emptyDiv, Component.errorNotice (round4 q)], ?_, rfl⟩
    simp only [update_output, if_pos hn, hth, hsel, hres, exceptOutput, hmv, hq]

/-- Witness for C9: each branch exercised at a concrete input. -/
theorem C9_witness :
    (∃ l, (update_output env0 1 "1 Year" "Foo" (1/10)).1 = Except.ok l ∧ l.length = 2)
    ∧ (∃ l, (update_output env0 1 "1 Year" "Max_Sharpe" (1/10)).1 = Except.ok l
        ∧ l.length = 3)
    ∧ (∃ l, (update_output env0 1 "1 Year" "Specific_Risk" (1/100)).1 = Except.ok l
        ∧ l.length = 2) :=
  ⟨C9_branch_arities.2.2.1 env0 1 "1 Year" 12 "Foo" (1/10) (by decide) (by decide) rfl,
   C9_branch_arities.2.2.2.1 env0 1 "1 Year" 12 "Max_Sharpe" (1/10)
     (Except.ok [("AAPL", 1)], "max_sharpe") [("AAPL", 1)]
     (by decide) (by decide) rfl rfl,
   C9_branch_arities.2.2.2.2 env0 1 "1 Year" 12 "Specific_Risk" (1/100)
     (Except.error PyErr.valueError, "efficient_risk") PyErr.valueError
     [("AXP", 3/5), ("AMGN", 2/5)] (List.foldl rmin (3/5) [2/5])
     (by decide) (by decide) rfl rfl rfl rfl⟩

end MarkowitzDash
